import Mathlib

/-!
Verification model of the replay-file decoder of the Brankobot repository
(`brankobot/cogs/utils/wotreplay_folder/extract_data_from_replay.py`,
`wotreplay.py`, and the guard in `brankobot/cogs/wot.py`, command
`replayinfo`).

Python values decoded from JSON are modelled by `JsonV`; Python dicts built
by `json` decoding are modelled as association lists in insertion order
(which is also Python-dict key order).  Python exceptions are modelled by
the `PyErr` error type together with `Except`.
-/

/-- A decoded JSON value (the generic object tree Python's `json` module
produces): `null`, booleans, numbers (modelled exactly as rationals),
strings, arrays, and objects as key/value lists in textual order. -/
inductive JsonV where
  | null : JsonV
  | bool (b : Bool) : JsonV
  | num (q : Rat) : JsonV
  | str (s : String) : JsonV
  | arr (elems : List JsonV) : JsonV
  | obj (fields : List (String × JsonV)) : JsonV

/-- The opening-brace character (code point 123), written by code point to
keep brace characters out of the source text of this file. -/
def lbrace : Char := Char.ofNat 123

/-- The closing-brace character (code point 125). -/
def rbrace : Char := Char.ofNat 125

/-- JSON insignificant whitespace, as accepted by Python's `json` decoder. -/
def isJsonWs (c : Char) : Bool := c = ' ' || c = '\t' || c = '\n' || c = '\r'

/-- Skip insignificant whitespace. -/
def skipWs (s : List Char) : List Char := s.dropWhile isJsonWs

/-- ASCII decimal digit test. -/
def isDigitC (c : Char) : Bool := 48 ≤ c.toNat && c.toNat ≤ 57

/-- Numeric value of a decimal digit character. -/
def digitVal (c : Char) : Nat := c.toNat - 48

/-- Value of a list of decimal digit characters, most significant first. -/
def digitsToNat (ds : List Char) : Nat := ds.foldl (fun a c => a * 10 + digitVal c) 0

/-- Hex-digit value, for string `\uXXXX` escapes. -/
def hexVal (c : Char) : Option Nat :=
  if 48 ≤ c.toNat ∧ c.toNat ≤ 57 then some (c.toNat - 48)
  else if 97 ≤ c.toNat ∧ c.toNat ≤ 102 then some (c.toNat - 87)
  else if 65 ≤ c.toNat ∧ c.toNat ≤ 70 then some (c.toNat - 55)
  else none

/-- Decode the body of a JSON string literal (the opening quote already
consumed), accumulating decoded characters in reverse in `acc`.  Handles the
escape sequences Python's strict decoder accepts and rejects unescaped
control characters, mirroring `json.decoder.py_scanstring`. -/
def parseStringAux : List Char → List Char → Option (String × List Char)
  | [], _ => none
  | c :: r, acc =>
    if c = '\"' then some (String.mk acc.reverse, r)
    else if c = '\\' then
      match r with
      | [] => none
      | e :: r2 =>
        if e = '\"' then parseStringAux r2 ('\"' :: acc)
        else if e = '\\' then parseStringAux r2 ('\\' :: acc)
        else if e = '/' then parseStringAux r2 ('/' :: acc)
        else if e = 'b' then parseStringAux r2 (Char.ofNat 8 :: acc)
        else if e = 'f' then parseStringAux r2 (Char.ofNat 12 :: acc)
        else if e = 'n' then parseStringAux r2 (Char.ofNat 10 :: acc)
        else if e = 'r' then parseStringAux r2 (Char.ofNat 13 :: acc)
        else if e = 't' then parseStringAux r2 (Char.ofNat 9 :: acc)
        else if e = 'u' then
          match r2 with
          | h1 :: h2 :: h3 :: h4 :: r3 =>
            match hexVal h1, hexVal h2, hexVal h3, hexVal h4 with
            | some a, some b, some cc, some d =>
                parseStringAux r3 (Char.ofNat (((a * 16 + b) * 16 + cc) * 16 + d) :: acc)
            | _, _, _, _ => none
          | _ => none
        else none
    else if c.toNat < 32 then none else parseStringAux r (c :: acc)

/-- The integer-part group of the decoder's `NUMBER_RE` regular
expression: `0`, or a digit run led by a nonzero digit; fails when no digit
is present. -/
def parseIntPart (s1 : List Char) : Option (Nat × List Char) :=
  match s1 with
  | [] => none
  | c :: r =>
    if ¬ isDigitC c then none
    else if c = '0' then some (0, r)
    else some (digitsToNat (c :: r.takeWhile isDigitC), r.dropWhile isDigitC)

/-- The optional fraction group `(\.\d+)?` of `NUMBER_RE`: consumed only
when a dot is followed by at least one digit; returns numerator,
denominator and the rest. -/
def parseFrac (r1 : List Char) : Nat × Nat × List Char :=
  match r1 with
  | '.' :: rr =>
    let ds := rr.takeWhile isDigitC
    if ds.isEmpty then (0, 1, r1)
    else (digitsToNat ds, 10 ^ ds.length, rr.dropWhile isDigitC)
  | _ => (0, 1, r1)

/-- The optional sign of the exponent group of `NUMBER_RE`. -/
def parseExpSign : List Char → Int × List Char
  | '+' :: t => (1, t)
  | '-' :: t => (-1, t)
  | t => (1, t)

/-- The optional exponent group `([eE][-+]?\\d+)?` of `NUMBER_RE`: consumed
only when syntactically complete. -/
def parseExp (r2 : List Char) : Int × List Char :=
  match r2 with
  | e :: rr =>
    if e = 'e' ∨ e = 'E' then
      if (parseExpSign rr).2.takeWhile isDigitC |>.isEmpty then (0, r2)
      else ((parseExpSign rr).1 * (digitsToNat ((parseExpSign rr).2.takeWhile isDigitC) : Int),
        (parseExpSign rr).2.dropWhile isDigitC)
    else (0, r2)
  | [] => (0, r2)

/-- The optional leading minus of `NUMBER_RE`. -/
def parseNeg : List Char → Bool × List Char
  | '-' :: r => (true, r)
  | s => (false, s)

/-- Decode a JSON number literal, mirroring the decoder's `NUMBER_RE`
regular expression: optional minus, an integer part, then an optional
fraction and an optional exponent.  The numeric value
`(-1)^sign * (ipart + fnum/fden) * 10^exp` is represented exactly as a
rational, built with `mkRat` from an integer numerator and a natural
denominator. -/
def parseNumber (s : List Char) : Option (JsonV × List Char) :=
  match parseIntPart (parseNeg s).2 with
  | none => none
  | some (ipart, r1) =>
    let fr := parseFrac r1
    let er := parseExp fr.2.2
    let mantissa : Nat := ipart * fr.2.1 + fr.1
    let base : Int := if (parseNeg s).1 then -(mantissa : Int) else (mantissa : Int)
    let q : Rat :=
      match er.1 with
      | .ofNat e => mkRat (base * ((10 ^ e : Nat) : Int)) fr.2.1
      | .negSucc e => mkRat base (fr.2.1 * 10 ^ (e + 1))
    some (JsonV.num q, er.2)

/-- Consume an expected literal character sequence (used for the `true`,
`false` and `null` keywords). -/
def dropPrefixLit : List Char → List Char → Option (List Char)
  | [], s => some s
  | _ :: _, [] => none
  | c :: cs, x :: xs => if x = c then dropPrefixLit cs xs else none

mutual

/-- Decode one JSON value starting exactly at the head of `s` (no leading
whitespace is skipped, as in `JSONDecoder.raw_decode`), returning the value
and the unconsumed rest.  `fuel` bounds recursion depth and is chosen large
enough by `raw_decode` below. -/
def parseValue : Nat → List Char → Option (JsonV × List Char)
  | 0, _ => none
  | _ + 1, [] => none
  | fuel + 1, c :: rest =>
    if c = lbrace then parseObjectRest fuel (skipWs rest)
    else if c = '[' then parseArrayRest fuel (skipWs rest)
    else if c = '\"' then
      match parseStringAux rest [] with
      | some (out, r) => some (JsonV.str out, r)
      | none => none
    else if c = 't' then
      match dropPrefixLit ['r', 'u', 'e'] rest with
      | some r2 => some (JsonV.bool true, r2)
      | none => none
    else if c = 'f' then
      match dropPrefixLit ['a', 'l', 's', 'e'] rest with
      | some r2 => some (JsonV.bool false, r2)
      | none => none
    else if c = 'n' then
      match dropPrefixLit ['u', 'l', 'l'] rest with
      | some r2 => some (JsonV.null, r2)
      | none => none
    else parseNumber (c :: rest)

/-- Decode the remainder of a JSON object, positioned after the opening
brace and any following whitespace: either an immediate closing brace or a
member list. -/
def parseObjectRest : Nat → List Char → Option (JsonV × List Char)
  | 0, _ => none
  | fuel + 1, s =>
    match s with
    | [] => none
    | c :: r =>
      if c = rbrace then some (JsonV.obj [], r)
      else
        match parseMembers fuel s with
        | some (fs, r2) => some (JsonV.obj fs, r2)
        | none => none

/-- Decode a nonempty member list of a JSON object, starting at a key
string; after a comma another member is required (no trailing comma). -/
def parseMembers : Nat → List Char → Option (List (String × JsonV) × List Char)
  | 0, _ => none
  | fuel + 1, s =>
    match s with
    | '\"' :: r =>
      match parseStringAux r [] with
      | some (k, r1) =>
        match skipWs r1 with
        | ':' :: r3 =>
          match parseValue fuel (skipWs r3) with
          | some (v, r5) =>
            match skipWs r5 with
            | c :: r7 =>
              if c = rbrace then some ([(k, v)], r7)
              else if c = ',' then
                match parseMembers fuel (skipWs r7) with
                | some (fs, r8) => some ((k, v) :: fs, r8)
                | none => none
              else none
            | [] => none
          | none => none
        | _ => none
      | none => none
    | _ => none

/-- Decode the remainder of a JSON array, positioned after the opening
bracket and any following whitespace. -/
def parseArrayRest : Nat → List Char → Option (JsonV × List Char)
  | 0, _ => none
  | fuel + 1, s =>
    match s with
    | [] => none
    | c :: r =>
      if c = ']' then some (JsonV.arr [], r)
      else
        match parseElems fuel s with
        | some (vs, r2) => some (JsonV.arr vs, r2)
        | none => none

/-- Decode a nonempty element list of a JSON array. -/
def parseElems : Nat → List Char → Option (List JsonV × List Char)
  | 0, _ => none
  | fuel + 1, s =>
    match parseValue fuel s with
    | some (v, r) =>
      match skipWs r with
      | c :: r3 =>
        if c = ']' then some ([v], r3)
        else if c = ',' then
          match parseElems fuel (skipWs r3) with
          | some (vs, r4) => some (v :: vs, r4)
          | none => none
        else none
      | [] => none
    | none => none

end

/-- Model of `json.JSONDecoder().raw_decode(s)`: decode one JSON value at
position 0 of `s`; on success return the value together with the number of
characters consumed (the index just past the value); `none` models the
`ValueError` the Python decoder raises. -/
def raw_decode (s : List Char) : Option (JsonV × Nat) :=
  match parseValue (2 * s.length + 2) s with
  | some (v, r) => some (v, s.length - r.length)
  | none => none

/-- Index (relative) of the first opening brace in a character list. -/
def idxOfBrace : List Char → Option Nat
  | [] => none
  | c :: r => if c = lbrace then some 0 else (idxOfBrace r).map (· + 1)

/-- Model of Python `text.find(brace, pos)` (with `none` for `-1`): the
least index `≥ pos` holding an opening brace. -/
def findBrace (text : List Char) (pos : Nat) : Option Nat :=
  (idxOfBrace (text.drop pos)).map (pos + ·)

/-- One iteration of the `while True` loop of `Parser._extract_json_objects`:
`none` means the loop breaks (no brace remains); `some (yv, pos2)` means the
loop continues at position `pos2`, yielding a decoded object when
`yv = some v` (decode success) and yielding nothing on decode failure. -/
def extractStep (text : List Char) (pos : Nat) : Option (Option JsonV × Nat) :=
  match findBrace text pos with
  | none => none
  | some m =>
    match raw_decode (text.drop m) with
    | some (v, n) => some (some v, m + n)
    | none => some (none, m + 1)

/-- The scanning loop of `Parser._extract_json_objects`, run with explicit
fuel; `none` means the fuel was exhausted before the loop broke (the
termination theorem shows `text.length + 1` fuel always suffices). -/
def extractLoopF : Nat → List Char → Nat → Option (List JsonV)
  | 0, _, _ => none
  | fuel + 1, text, pos =>
    match extractStep text pos with
    | none => some []
    | some (yv, pos2) =>
      (extractLoopF fuel text pos2).map fun rest =>
        match yv with
        | some v => v :: rest
        | none => rest

/-- Model of `Parser._extract_json_objects(text)`: the full list of decoded
JSON objects, in order of appearance. -/
def extract_json_objects (text : List Char) : List JsonV :=
  (extractLoopF (text.length + 1) text 0).getD []

/-- Whitespace as recognised by Python's no-argument `str.split()`
(`str.isspace` characters): ASCII whitespace and separators 28 to 32, plus
the Unicode space/separator code points. -/
def pyIsSpace (c : Char) : Bool :=
  c.toNat ∈ ([9, 10, 11, 12, 13, 28, 29, 30, 31, 32, 133, 160, 5760,
    8192, 8193, 8194, 8195, 8196, 8197, 8198, 8199, 8200, 8201, 8202,
    8232, 8233, 8239, 8287, 12288] : List Nat)

/-- Accumulator form of Python's `line.split()`: split on runs of
whitespace, discarding empty pieces. `cur` holds the character of the piece
being read, in reverse. -/
def pySplitAux : List Char → List Char → List (List Char)
  | [], cur => if cur.isEmpty then [] else [cur.reverse]
  | c :: rest, cur =>
    if pyIsSpace c then
      if cur.isEmpty then pySplitAux rest []
      else cur.reverse :: pySplitAux rest []
    else pySplitAux rest (c :: cur)

/-- Model of Python `line.split()` with no separator argument. -/
def pySplitWs (l : List Char) : List (List Char) := pySplitAux l []

/-- The per-line body of `Parser._open_file`: split the line on whitespace,
then walk every character of every piece, dropping characters with code
point below 34 or above 127 and appending the rest to the accumulator, as
the nested `for` loops do. -/
def open_file_line (line : List Char) : List Char :=
  (pySplitWs line).foldl
    (fun acc record =>
      record.foldl
        (fun acc2 letter =>
          if letter.toNat < 34 ∨ letter.toNat > 127 then acc2 else acc2 ++ [letter])
        acc)
    []

/-- Model of `Parser._open_file` over the file's line list: the loop binds
the accumulator only on iteration `0`; the final `join` of an unbound
accumulator (a file with no lines) is modelled by `none`
(Python's `UnboundLocalError`). -/
def open_file (lines : List (List Char)) : Option (List Char) :=
  lines.enum.foldl
    (fun acc p => if p.1 = 0 then some (open_file_line p.2) else acc)
    none

/-- Model of the `Parser.__init__` loop over the decoded object sequence:
object `0` becomes `replay_metadata` (`none` when no object exists, as the
attribute is initialised to `None`), every later object is appended to
`battle_data`. -/
def parserSplit (objs : List JsonV) : Option JsonV × List JsonV :=
  objs.enum.foldl
    (fun acc p => if p.1 = 0 then (some p.2, acc.2) else (acc.1, acc.2 ++ [p.2]))
    (none, [])

/-- The Python exceptions the modelled code can raise.  `replayNoData`
models `ReplayError` with the message `No data found in replay, did you
quit before the game ended?` and `replayCouldntExtract` models
`ReplayError` with the message `Couldnt extract data from replay` (both
raised in `WoT.replayinfo`). -/
inductive PyErr where
  | keyError : PyErr
  | indexError : PyErr
  | typeError : PyErr
  | attributeError : PyErr
  | valueError : PyErr
  | replayNoData : PyErr
  | replayCouldntExtract : PyErr
deriving DecidableEq

/-- First-match lookup in an object field list (Python dict lookup, with
insertion order preserved). -/
def lookupField : List (String × JsonV) → String → Option JsonV
  | [], _ => none
  | (k, v) :: r, key => if k = key then some v else lookupField r key

/-- Python list indexing `l[i]` with an `IndexError` on overflow. -/
def listIdx (l : List JsonV) (i : Nat) : Except PyErr JsonV :=
  match l[i]? with
  | some v => .ok v
  | none => .error .indexError

/-- Python dict subscript `v[k]`: `KeyError` when the key is absent,
`TypeError` when `v` is not a dict. -/
def dictGetItem (v : JsonV) (k : String) : Except PyErr JsonV :=
  match v with
  | .obj fs =>
    match lookupField fs k with
    | some w => .ok w
    | none => .error .keyError
  | _ => .error .typeError

/-- View a value as a dict (needed for `.keys()` / `.get`, which raise
`AttributeError` on non-dict values). -/
def asDict (v : JsonV) : Except PyErr (List (String × JsonV)) :=
  match v with
  | .obj fs => .ok fs
  | _ => .error .attributeError

/-- Dict subscript on an already-viewed field list (`KeyError` when
absent). -/
def fsGetItem (fs : List (String × JsonV)) (k : String) : Except PyErr JsonV :=
  match lookupField fs k with
  | some v => .ok v
  | none => .error .keyError

/-- Python subscript `v[0]` as used on the `autoLoadCost` / `autoEquipCost`
values: head of a list, `IndexError` on an empty list, `TypeError` on a
non-sequence. -/
def pySubscriptZero (v : JsonV) : Except PyErr JsonV :=
  match v with
  | .arr (x :: _) => .ok x
  | .arr [] => .error .indexError
  | _ => .error .typeError

/-- Python truthiness `bool(v)` of a decoded JSON value. -/
def pyBool : JsonV → Bool
  | .null => false
  | .bool b => b
  | .num q => decide (q ≠ 0)
  | .str s => decide (s ≠ "")
  | .arr l => ¬ l.isEmpty
  | .obj l => ¬ l.isEmpty

mutual

/-- Python `repr` of a decoded JSON value (used by `str` on non-string
values; numeric formatting of non-integer rationals is approximate, but no
code path under verification reaches it). -/
def pyRepr : JsonV → String
  | .null => "None"
  | .bool true => "True"
  | .bool false => "False"
  | .num q => if q.den = 1 then toString q.num else toString q
  | .str s => String.singleton (Char.ofNat 39) ++ s ++ String.singleton (Char.ofNat 39)
  | .arr es => "[" ++ String.intercalate ", " (pyReprList es) ++ "]"
  | .obj fs => String.singleton lbrace ++ String.intercalate ", " (pyReprFields fs)
      ++ String.singleton rbrace

/-- `repr` of each element of a list. -/
def pyReprList : List JsonV → List String
  | [] => []
  | x :: xs => pyRepr x :: pyReprList xs

/-- `repr` of each key/value pair of a dict. -/
def pyReprFields : List (String × JsonV) → List String
  | [] => []
  | (k, v) :: xs =>
    (String.singleton (Char.ofNat 39) ++ k ++ String.singleton (Char.ofNat 39)
      ++ ": " ++ pyRepr v) :: pyReprFields xs

end

/-- Python `str(v)` of a decoded JSON value. -/
def pyStr (v : JsonV) : String :=
  match v with
  | .str s => s
  | _ => pyRepr v

/-- Python `str.split(sep)` with a one-character separator, over character
lists: splits at every separator occurrence, keeping empty pieces
(`cur` is the piece being read, reversed). -/
def splitChAux (sep : Char) : List Char → List Char → List (List Char)
  | [], cur => [cur.reverse]
  | c :: r, cur => if c = sep then cur.reverse :: splitChAux sep r [] else splitChAux sep r (c :: cur)

/-- Python `s.split(sep)` for a one-character separator. -/
def splitCh (sep : Char) (l : List Char) : List (List Char) := splitChAux sep l []

/-- Python `int(s)` on a string: optional surrounding whitespace, an
optional sign, then at least one decimal digit; anything else raises
`ValueError`. -/
def pyInt (s : String) : Except PyErr Int :=
  let t := ((s.toList.dropWhile pyIsSpace).reverse.dropWhile pyIsSpace).reverse
  match t with
  | '-' :: ds =>
    if ds ≠ [] ∧ ds.all isDigitC then .ok (-(digitsToNat ds : Int)) else .error .valueError
  | '+' :: ds =>
    if ds ≠ [] ∧ ds.all isDigitC then .ok (digitsToNat ds : Int) else .error .valueError
  | ds =>
    if ds ≠ [] ∧ ds.all isDigitC then .ok (digitsToNat ds : Int) else .error .valueError

/-- The shared prefix of `get_battle_performance`, `get_battle_economy`
and `get_battle_xp`:
`raw_data = self.battle_data[0]['personal']`,
`battle_id = list(raw_data.keys())[0]`, `data = raw_data[battle_id]`.
Note it takes the FIRST key of the personal map whatever its cardinality,
raising only an `IndexError` when the map has no key at all. -/
def personalSource (battle_data : List JsonV) : Except PyErr JsonV := do
  let b0 ← listIdx battle_data 0
  let raw ← dictGetItem b0 "personal"
  let fields ← asDict raw
  match fields with
  | [] => .error .indexError
  | f :: _ => dictGetItem raw f.1
/-- The (record key, source key, default) triples of `get_battle_performance`,
in source order. -/
def performanceFields : List (String × String × JsonV) := [
  ("stunned", "stunned", JsonV.num 0),
  ("achievements", "achievements", JsonV.arr []),
  ("direct_hits", "directHits", JsonV.num 0),
  ("damage_assisted_radio", "damageAssistedRadio", JsonV.num 0),
  ("stun_duration", "stunDuration", JsonV.num 0),
  ("win_points", "winPoints", JsonV.num 0),
  ("damaged_while_moving", "damagedWhileMoving", JsonV.num 0),
  ("kills", "kills", JsonV.num 0),
  ("percent_of_total_team_damage", "percentFromTotalTeamDamage", JsonV.num 0),
  ("mark_of_mastery", "markOfMastery", JsonV.num 0),
  ("no_damage_direct_hits_received", "noDamageDirectHitsReceived", JsonV.num 0),
  ("equipment_damage_dealt", "equipmentDamageDealt", JsonV.num 0),
  ("team_kills", "tkills", JsonV.num 0),
  ("shots", "shots", JsonV.num 0),
  ("team", "team", JsonV.num 0),
  ("death_count", "deathCount", JsonV.num 0),
  ("stun_number", "stunNum", JsonV.num 0),
  ("spotted", "spotted", JsonV.num 0),
  ("killer_id", "killerID", JsonV.num 0),
  ("solo_flag_capture", "soloFlagCapture", JsonV.num 0),
  ("marks_on_gun", "marksOnGun", JsonV.num 0),
  ("killed_and_damaged_by_all_squad_mates", "killedAndDamagedByAllSquadmates", JsonV.num 0),
  ("rollouts_count", "rolloutsCount", JsonV.num 0),
  ("health", "health", JsonV.num 0),
  ("stop_respawn", "stopRespawn", JsonV.bool false),
  ("team_damage_dealt", "tdamageDealt", JsonV.num 0),
  ("resource_absorbed", "resourceAbsorbed", JsonV.num 0),
  ("damaged_while_enemy_moving", "damagedWhileEnemyMoving", JsonV.num 0),
  ("damage_received", "damageReceived", JsonV.num 0),
  ("percent_from_second_best_damage", "percentFromSecondBestDamage", JsonV.num 0),
  ("committed_suicide", "committedSuicide", JsonV.bool false),
  ("life_time", "lifeTime", JsonV.num 0),
  ("damage_assisted_track", "damageAssistedTrack", JsonV.num 0),
  ("sniper_damage_dealt", "sniperDamageDealt", JsonV.num 0),
  ("fairplay_factor", "fairplayFactor10", JsonV.num 0),
  ("damage_blocked_by_armour", "damageBlockedByArmor", JsonV.num 0),
  ("dropped_capture_points", "droppedCapturePoints", JsonV.num 0),
  ("damage_received_from_invisibles", "damageReceivedFromInvisibles", JsonV.num 0),
  ("max_health", "maxHealth", JsonV.num 0),
  ("moving_avg_damage", "movingAvgDamage", JsonV.num 0),
  ("flag_capture", "flagCapture", JsonV.num 0),
  ("kills_before_team_was_damaged", "killsBeforeTeamWasDamaged", JsonV.num 0),
  ("potential_damage_received", "potentialDamageReceived", JsonV.num 0),
  ("direct_team_hits", "directTeamHits", JsonV.num 0),
  ("damage_dealt", "damageDealt", JsonV.num 0),
  ("piercings_received", "piercingsReceived", JsonV.num 0),
  ("piercings", "piercings", JsonV.num 0),
  ("prev_mark_of_mastery", "prevMarkOfMastery", JsonV.num 0),
  ("damaged", "damaged", JsonV.num 0),
  ("death_reason", "deathReason", JsonV.num 0),
  ("capture_points", "capturePoints", JsonV.num 0),
  ("damage_before_team_was_damaged", "damageBeforeTeamWasDamaged", JsonV.num 0),
  ("explosion_hits_received", "explosionHitsReceived", JsonV.num 0),
  ("damage_rating", "damageRating", JsonV.num 0),
  ("meters_driven", "mileage", JsonV.num 0),
  ("explosion_hits", "explosionHits", JsonV.num 0),
  ("direct_hits_received", "directHitsReceived", JsonV.num 0),
  ("is_team_killer", "isTeamKiller", JsonV.bool false),
  ("capturing_base", "capturingBase", JsonV.bool false),
  ("damage_assisted_stun", "damageAssistedStun", JsonV.num 0),
  ("damage_assisted_smoke", "damageAssistedSmoke", JsonV.num 0),
  ("total_destroyed_modules", "tdestroyedModules", JsonV.num 0),
  ("damage_assisted_inspire", "damageAssistedInspire", JsonV.num 0)
]

/-- The (record key, source key, default) triples of `get_battle_economy`,
in source order (after the two resupply entries). -/
def economyFields : List (String × String × JsonV) := [
  ("credits_to_draw", "creditsToDraw", JsonV.num 0),
  ("original_prem_squad_credits", "originalPremSquadCredits", JsonV.num 0),
  ("credits_contribution_in", "creditsContributionIn", JsonV.num 0),
  ("event_credits", "eventCredits", JsonV.num 0),
  ("piggy_bank", "piggyBank", JsonV.num 0),
  ("premium_credits_factor_100", "premiumCreditsFactor100", JsonV.num 0),
  ("original_credits_contribution_in", "originalCreditsContributionIn", JsonV.num 0),
  ("original_credits_penalty", "originalPremSquadCredits", JsonV.num 0),
  ("original_gold", "originalGold", JsonV.num 0),
  ("booster_credits", "boosterCredits", JsonV.num 0),
  ("referral_20_credits", "referral20Credits", JsonV.num 0),
  ("subtotal_event_coin", "subtotalEventCoin", JsonV.num 0),
  ("booster_credits_factor_100", "boosterCreditsFactor100", JsonV.num 0),
  ("credits_contribution_out", "creditsContributionOut", JsonV.num 0),
  ("credits", "originalPremSquadCredits", JsonV.num 0),
  ("gold_replay", "goldReplay", JsonV.num 0),
  ("credits_penalty", "creditsPenalty", JsonV.num 0),
  ("repair", "repair", JsonV.num 0),
  ("original_credits", "originalCredits", JsonV.num 0),
  ("order_credits", "orderCredits", JsonV.num 0),
  ("order_credits_factor_100", "orderCreditsFactor100", JsonV.num 0),
  ("original_crystal", "originalCrystal", JsonV.num 0),
  ("applied_premium_credits_factor_100", "appliedPremiumCreditsFactor100", JsonV.num 0),
  ("prem_squad_credits", "premSquadCredits", JsonV.num 0),
  ("event_gold", "eventGold", JsonV.num 0),
  ("gold", "gold", JsonV.num 0),
  ("original_credits_contribution_in_squad", "originalCreditsContributionInSquad", JsonV.num 0),
  ("original_event_coin", "originalEventCoin", JsonV.num 0),
  ("factual_credits", "factualCredits", JsonV.num 0),
  ("event_coin", "eventCoin", JsonV.num 0),
  ("crystal", "crystal", JsonV.num 0),
  ("crystal_replay", "crystalReplay", JsonV.num 0),
  ("original_credits_to_draw_squad", "originalCreditsToDrawSquad", JsonV.num 0),
  ("subtotal_credits", "subtotalCredits", JsonV.num 0),
  ("credits_replay", "creditsReplay", JsonV.num 0),
  ("event_event_coin", "eventEventCoin", JsonV.num 0),
  ("subtotal_crystal", "subtotalCrystal", JsonV.num 0),
  ("achievement_credits", "achievementCredits", JsonV.num 0),
  ("subtotal_gold", "subtotalGold", JsonV.num 0),
  ("event_crystal", "eventCrystal", JsonV.num 0),
  ("event_coin_replay", "eventCoinReplay", JsonV.num 0),
  ("auto_repair_cost", "autoRepairCost", JsonV.num 0),
  ("original_credits_penalty_squad", "originalCreditsPenaltySquad", JsonV.num 0)
]

/-- The (record key, source key, default) triples of `get_battle_xp`,
in source order. -/
def xpFields : List (String × String × JsonV) := [
  ("order_free_xp_factor_100", "orderFreeXPFactor100", JsonV.num 0),
  ("order_xp_factor_100", "orderXPFactor100", JsonV.num 0),
  ("free_xp_replay", "freeXPReplay", JsonV.num 0),
  ("xp_other", "xp/other", JsonV.num 0),
  ("premium_t_men_xp_factor_100", "premiumTmenXPFactor100", JsonV.num 0),
  ("achievement_xp", "achievementXP", JsonV.num 0),
  ("igr_xp_factor_10", "igrXPFactor10", JsonV.num 0),
  ("event_t_men_xp", "eventTMenXP", JsonV.num 0),
  ("premium_plus_xp_factor_100", "premiumPlusXPFactor100", JsonV.num 0),
  ("premium_plus_t_men_xp_factor_100", "premiumPlusTmenXPFactor100", JsonV.num 0),
  ("original_t_men_xp", "originalTMenXP", JsonV.num 0),
  ("referral_20_xp", "referral20XP", JsonV.num 0),
  ("subtotal_t_men_xp", "subtotalTMenXP", JsonV.num 0),
  ("premium_vehicle_xp_factor_100", "premiumVehicleXPFactor100", JsonV.num 0),
  ("additional_xp_factor_100", "additionalXPFactor10", JsonV.num 0),
  ("factual_xp", "factualXP", JsonV.num 0),
  ("order_free_xp", "orderFreeXP", JsonV.num 0),
  ("booster_t_men_xp_factor_100", "boosterTMenXPFactor100", JsonV.num 0),
  ("original_xp", "originalXP", JsonV.num 0),
  ("applied_premium_xp_factor_100", "appliedPremiumXPFactor100", JsonV.num 0),
  ("booster_xp", "boosterXP", JsonV.num 0),
  ("factual_free_xp", "factualFreeXP", JsonV.num 0),
  ("daily_xp_factor_10", "dailyXPFactor10", JsonV.num 0),
  ("event_free_xp", "eventFreeXP", JsonV.num 0),
  ("player_rank_xp_factor_100", "playerRankXPFactor100", JsonV.num 0),
  ("xp_penalty", "xpPenalty", JsonV.num 0),
  ("xp", "xp", JsonV.num 0),
  ("booster_xp_factor_100", "boosterXPFactor100", JsonV.num 0),
  ("order_t_men_xp", "orderTMenXP", JsonV.num 0),
  ("original_xp_penalty", "originalXPPenalty", JsonV.num 0),
  ("order_t_men_xp_factor_100", "orderTMenXPFactor100", JsonV.num 0),
  ("subtotal_xp", "subtotalXP", JsonV.num 0),
  ("squad_xp", "squadXP", JsonV.num 0),
  ("original_free_xp", "originalFreeXP", JsonV.num 0),
  ("xp_assist", "xp/assist", JsonV.num 0),
  ("free_xp", "freeXP", JsonV.num 0),
  ("premium_vehicle_xp", "premiumVehicleXP", JsonV.num 0),
  ("referral_20_xp_factor_100", "referral20XPFactor100", JsonV.num 0),
  ("event_xp", "eventXP", JsonV.num 0),
  ("subtotal_free_xp", "subtotalFreeXP", JsonV.num 0),
  ("achievement_free_xp", "achievementFreeXP", JsonV.num 0),
  ("player_rank_xp", "playerRankXP", JsonV.num 0),
  ("squad_xp_factor_100", "squadXPFactor100", JsonV.num 0),
  ("applied_premium_t_men_xp_factor_100", "appliedPremiumTmenXPFactor100", JsonV.num 0),
  ("booster_t_men_xp", "boosterTMenXP", JsonV.num 0),
  ("xp_attack", "xp/attack", JsonV.num 0),
  ("ref_system_xp_factor_10", "refSystemXPFactor10", JsonV.num 0),
  ("t_men_xp_replay", "tmenXPReplay", JsonV.num 0),
  ("premium_xp_factor_100", "premiumXPFactor100", JsonV.num 0),
  ("t_men_xp", "tmenXP", JsonV.num 0),
  ("booster_free_xp_factor_100", "boosterFreeXPFactor100", JsonV.num 0),
  ("booster_free_xp", "boosterFreeXP", JsonV.num 0),
  ("battle_num", "battleNum", JsonV.num 0)
]


/-- The `battle_performance` dict literal of `Replay.get_battle_performance`
applied to the personal source map: every entry is
`data.get(sourceKey, default)`. -/
def performanceRecord (fs : List (String × JsonV)) : List (String × JsonV) :=
  performanceFields.map fun f => (f.1, (lookupField fs f.2.1).getD f.2.2)

/-- Model of `Replay.get_battle_performance`. -/
def get_battle_performance (battle_data : List JsonV) : Except PyErr (List (String × JsonV)) := do
  let data ← personalSource battle_data
  let fs ← asDict data
  pure (performanceRecord fs)

/-- The `battle_economy` dict literal of `Replay.get_battle_economy`
applied to the personal source map: the two resupply entries subscript
element 0 of `data.get(key, [0])`; every other entry is
`data.get(sourceKey, 0)`. -/
def economyRecord (fs : List (String × JsonV)) : Except PyErr (List (String × JsonV)) := do
  let ra ← pySubscriptZero ((lookupField fs "autoLoadCost").getD (JsonV.arr [JsonV.num 0]))
  let rc ← pySubscriptZero ((lookupField fs "autoEquipCost").getD (JsonV.arr [JsonV.num 0]))
  pure (("resupply_ammunition", ra) :: ("resupply_consumables", rc) ::
    economyFields.map fun f => (f.1, (lookupField fs f.2.1).getD f.2.2))

/-- Model of `Replay.get_battle_economy`. -/
def get_battle_economy (battle_data : List JsonV) : Except PyErr (List (String × JsonV)) := do
  let data ← personalSource battle_data
  let fs ← asDict data
  economyRecord fs

/-- The `battle_xp` dict literal of `Replay.get_battle_xp` applied to the
personal source map. -/
def xpRecord (fs : List (String × JsonV)) : List (String × JsonV) :=
  xpFields.map fun f => (f.1, (lookupField fs f.2.1).getD f.2.2)

/-- Model of `Replay.get_battle_xp`. -/
def get_battle_xp (battle_data : List JsonV) : Except PyErr (List (String × JsonV)) := do
  let data ← personalSource battle_data
  let fs ← asDict data
  pure (xpRecord fs)

/-- The kill-count expression of `Replay.get_battle_players`:
`data[2].get(player_id, dict. frags: N/A .)['frags']` — element 2 of the
battle-data list, looked up by player id with a one-field default dict,
then subscripted at `frags`. -/
def killsExpr (data : List JsonV) (pid : String) : Except PyErr JsonV := do
  let d2 ← listIdx data 2
  let kf ← asDict d2
  dictGetItem ((lookupField kf pid).getD (JsonV.obj [("frags", JsonV.str "N/A")])) "frags"

/-- The loop body of `Replay.get_battle_players` for one `player_id`,
building one player dict; field expressions appear in source evaluation
order (`vehicle` split first, the `kills` lookup last). -/
def buildPlayer (data : List JsonV) (pid : String) : Except PyErr (List (String × JsonV)) := do
  let d1 ← listIdx data 1
  let raw ← dictGetItem d1 pid
  let rawFs ← asDict raw
  let vt ← fsGetItem rawFs "vehicleType"
  let vehicle := splitCh ':' (pyStr vt).toList
  let idv ← pyInt pid
  let fake := (lookupField rawFs "fakeName").getD (JsonV.str "None")
  let team ← fsGetItem rawFs "team"
  let clan ← fsGetItem rawFs "clanAbbrev"
  let isAlive ← fsGetItem rawFs "isAlive"
  let forbid ← fsGetItem rawFs "forbidInBattleInvitations"
  let igr ← fsGetItem rawFs "igrType"
  let istk ← fsGetItem rawFs "isTeamKiller"
  let nm ← fsGetItem rawFs "name"
  let kills ← killsExpr data pid
  pure [("id", JsonV.num (idv : Int)),
        ("fake_name", fake),
        ("team", team),
        ("clan_tag", clan),
        ("vehicle_type", vt),
        ("vehicle_tag", JsonV.str (String.mk (vehicle.getLastD []))),
        ("vehicle_nation", JsonV.str (String.mk (vehicle.headD []))),
        ("is_alive", isAlive),
        ("forbid_in_battle_invitations", forbid),
        ("igr_type", igr),
        ("is_team_killer", JsonV.bool (pyBool istk)),
        ("name", nm),
        ("kills", kills)]

/-- The `for player_id in player_ids` loop of `Replay.get_battle_players`,
appending one player dict per id. -/
def buildPlayers (data : List JsonV) : List String → Except PyErr (List (List (String × JsonV)))
  | [] => .ok []
  | pid :: rest => do
    let r ← buildPlayer data pid
    let rs ← buildPlayers data rest
    pure (r :: rs)

/-- Model of `Replay.get_battle_players`:
`player_ids = list(data[1].keys())`, then the build loop. -/
def get_battle_players (data : List JsonV) : Except PyErr (List (List (String × JsonV))) := do
  let d1 ← listIdx data 1
  let fs ← asDict d1
  buildPlayers data (fs.map Prod.fst)

/-- Model of the extraction guard of `WoT.replayinfo` (`wot.py`): inside a
`try`, construct the replay and raise the no-data `ReplayError` when
`battle_data` is empty; the surrounding bare `except` catches ANY error
raised inside — including that very `ReplayError` — and raises the generic
`Couldnt extract data from replay` error instead.  The input is the result
of replay construction (metadata and battle-data list, or a Python
error). -/
def replayinfo_check (r : Except PyErr (Option JsonV × List JsonV)) :
    Except PyErr (Option JsonV × List JsonV) :=
  let attempt : Except PyErr (Option JsonV × List JsonV) := do
    let rd ← r
    if rd.2.isEmpty then .error .replayNoData else .ok rd
  match attempt with
  | .ok rd => .ok rd
  | .error _ => .error .replayCouldntExtract

theorem dropWhile_len_le (p : Char → Bool) (s : List Char) :
    (s.dropWhile p).length ≤ s.length := by
  induction s with
  | nil => simp
  | cons c r ih =>
    rw [List.dropWhile]
    cases p c <;> simp <;> omega

theorem skipWs_le (s : List Char) : (skipWs s).length ≤ s.length :=
  dropWhile_len_le isJsonWs s
theorem parseStringAux_le_aux :
    ∀ (n : Nat) (s acc : List Char) (out : String) (r : List Char), s.length ≤ n →
      parseStringAux s acc = some (out, r) → r.length ≤ s.length := by
  intro n
  induction n with
  | zero =>
    intro s acc out r hlen h
    cases s with
    | nil => simp [parseStringAux] at h
    | cons c rest => simp at hlen
  | succ n ih =>
    intro s acc out r hlen h
    cases s with
    | nil => simp [parseStringAux] at h
    | cons c rest =>
      rw [parseStringAux.eq_def] at h
      simp only at h
      simp only [List.length_cons] at hlen ⊢
      by_cases h1 : c = '\"'
      · rw [if_pos h1] at h
        obtain ⟨-, rfl⟩ := Option.some.inj h |> Prod.mk.inj
        omega
      rw [if_neg h1] at h
      by_cases h2 : c = '\\'
      · rw [if_pos h2] at h
        cases rest with
        | nil => simp at h
        | cons e r2 =>
          simp only [List.length_cons] at hlen ⊢
          simp only at h
          split_ifs at h <;>
            first
            | (have hb := ih r2 _ out r (by omega) h; omega)
            | (rcases r2 with _ | ⟨a1, _ | ⟨a2, _ | ⟨a3, _ | ⟨a4, r3⟩⟩⟩⟩ <;>
                first
                | (simp only at h
                   split at h <;>
                     first
                     | (have hb := ih r3 _ out r (by simp at hlen; omega) h
                        simp only [List.length_cons]
                        omega)
                     | simp at h)
                | simp at h)
            | simp at h
      rw [if_neg h2] at h
      by_cases h3 : c.toNat < 32
      · rw [if_pos h3] at h
        simp at h
      rw [if_neg h3] at h
      have hb := ih rest _ out r (by omega) h
      omega

theorem parseStringAux_le (s acc : List Char) (out : String) (r : List Char)
    (h : parseStringAux s acc = some (out, r)) : r.length ≤ s.length :=
  parseStringAux_le_aux s.length s acc out r le_rfl h


theorem parseIntPart_lt (s1 : List Char) (i : Nat) (r1 : List Char)
    (h : parseIntPart s1 = some (i, r1)) : r1.length < s1.length := by
  cases s1 with
  | nil => simp [parseIntPart] at h
  | cons c r =>
    simp only [parseIntPart] at h
    split_ifs at h <;> simp at h <;>
      obtain ⟨-, rfl⟩ := h <;>
      simp only [List.length_cons] <;>
      have := dropWhile_len_le isDigitC r <;>
      omega

theorem parseFrac_le (r1 : List Char) : (parseFrac r1).2.2.length ≤ r1.length := by
  rw [parseFrac.eq_def]
  split
  · rename_i rr
    by_cases hds : (rr.takeWhile isDigitC).isEmpty
    · simp [hds]
    · simp only [hds]
      have := dropWhile_len_le isDigitC rr
      simp
      omega
  · simp

theorem parseExpSign_le (l : List Char) : (parseExpSign l).2.length ≤ l.length := by
  rw [parseExpSign.eq_def]
  split <;> simp

theorem parseExp_le (r2 : List Char) : (parseExp r2).2.length ≤ r2.length := by
  rw [parseExp.eq_def]
  split
  · rename_i e rr
    by_cases he : e = 'e' ∨ e = 'E'
    · rw [if_pos he]
      by_cases hds : ((parseExpSign rr).2.takeWhile isDigitC).isEmpty
      · simp [hds]
      · simp only [hds, if_false, if_neg]
        have h1 := parseExpSign_le rr
        have h2 := dropWhile_len_le isDigitC (parseExpSign rr).2
        simp
        omega
    · simp [he]
  · simp

theorem parseNumber_lt (s : List Char) (v : JsonV) (r : List Char)
    (h : parseNumber s = some (v, r)) : r.length < s.length := by
  rw [parseNumber.eq_def] at h
  split at h
  · exact absurd h (by simp)
  · rename_i ipart r1 hint
    have h0 : (parseNeg s).2.length ≤ s.length := by
      rw [parseNeg.eq_def]
      split <;> simp
    have h1 := parseIntPart_lt _ _ _ hint
    have h2 := parseFrac_le r1
    have h3 := parseExp_le (parseFrac r1).2.2
    simp only at h
    obtain ⟨-, rfl⟩ := Option.some.inj h |> Prod.mk.inj
    omega


theorem dropPrefixLit_len :
    ∀ (lit s r : List Char), dropPrefixLit lit s = some r → r.length + lit.length = s.length := by
  intro lit
  induction lit with
  | nil =>
    intro s r h
    obtain rfl := Option.some.inj h
    simp
  | cons c cs ih =>
    intro s r h
    cases s with
    | nil => simp [dropPrefixLit] at h
    | cons x xs =>
      simp only [dropPrefixLit] at h
      split_ifs at h
      have := ih xs r h
      simp only [List.length_cons]
      omega

theorem parse_bounds : ∀ fuel : Nat,
    (∀ s v r, parseValue fuel s = some (v, r) → r.length < s.length) ∧
    (∀ s v r, parseObjectRest fuel s = some (v, r) → r.length < s.length) ∧
    (∀ s fs r, parseMembers fuel s = some (fs, r) → r.length < s.length) ∧
    (∀ s v r, parseArrayRest fuel s = some (v, r) → r.length < s.length) ∧
    (∀ s vs r, parseElems fuel s = some (vs, r) → r.length < s.length) := by
  intro fuel
  induction fuel with
  | zero =>
    refine ⟨?_, ?_, ?_, ?_, ?_⟩ <;> intro s a r h <;>
      simp [parseValue, parseObjectRest, parseMembers, parseArrayRest, parseElems] at h
  | succ n ih =>
    obtain ⟨ihv, iho, ihm, iha, ihe⟩ := ih
    refine ⟨?_, ?_, ?_, ?_, ?_⟩
    · -- parseValue
      intro s v r h
      cases s with
      | nil => simp [parseValue] at h
      | cons c rest =>
        rw [parseValue.eq_def] at h
        simp only at h
        simp only [List.length_cons]
        split_ifs at h with hc1 hc2 hc3 hc4 hc5 hc6
        · have hb := iho _ _ _ h
          have hw := skipWs_le rest
          omega
        · have hb := iha _ _ _ h
          have hw := skipWs_le rest
          omega
        · split at h
          · rename_i out r2 heq
            obtain ⟨-, rfl⟩ := Option.some.inj h |> Prod.mk.inj
            have hb := parseStringAux_le rest [] out r2 heq
            omega
          · simp at h
        · split at h
          · rename_i r2 heq
            obtain ⟨-, rfl⟩ := Option.some.inj h |> Prod.mk.inj
            have hb := dropPrefixLit_len _ _ _ heq
            simp only [List.length_cons] at hb
            omega
          · simp at h
        · split at h
          · rename_i r2 heq
            obtain ⟨-, rfl⟩ := Option.some.inj h |> Prod.mk.inj
            have hb := dropPrefixLit_len _ _ _ heq
            simp only [List.length_cons] at hb
            omega
          · simp at h
        · split at h
          · rename_i r2 heq
            obtain ⟨-, rfl⟩ := Option.some.inj h |> Prod.mk.inj
            have hb := dropPrefixLit_len _ _ _ heq
            simp only [List.length_cons] at hb
            omega
          · simp at h
        · have hb := parseNumber_lt _ _ _ h
          simp only [List.length_cons] at hb
          omega
    · -- parseObjectRest
      intro s v r h
      cases s with
      | nil => simp [parseObjectRest] at h
      | cons c rr =>
        rw [parseObjectRest.eq_def] at h
        simp only at h
        simp only [List.length_cons]
        split_ifs at h with hc
        · obtain ⟨-, rfl⟩ := Option.some.inj h |> Prod.mk.inj
          omega
        · split at h
          · rename_i fs r2 heq
            obtain ⟨-, rfl⟩ := Option.some.inj h |> Prod.mk.inj
            have hb := ihm _ _ _ heq
            simp only [List.length_cons] at hb
            omega
          · simp at h
    · -- parseMembers
      intro s fs r h
      rw [parseMembers.eq_def] at h
      simp only at h
      split at h
      · rename_i rr
        split at h
        · rename_i k r1 heq1
          have hb1 := parseStringAux_le rr [] k r1 heq1
          split at h
          · rename_i r3 heq2
            have hL2 := congrArg List.length heq2
            simp only [List.length_cons] at hL2
            have hW2 := skipWs_le r1
            split at h
            · rename_i v5 r5 heq3
              have hb3 := ihv _ _ _ heq3
              have hW3 := skipWs_le r3
              split at h
              · rename_i c7 r7 heq4
                have hL4 := congrArg List.length heq4
                simp only [List.length_cons] at hL4
                have hW4 := skipWs_le r5
                split_ifs at h with hb hcomma
                · obtain ⟨-, rfl⟩ := Option.some.inj h |> Prod.mk.inj
                  simp only [List.length_cons]
                  omega
                · split at h
                  · rename_i fs8 r8 heq5
                    obtain ⟨-, rfl⟩ := Option.some.inj h |> Prod.mk.inj
                    have hb5 := ihm _ _ _ heq5
                    have hW5 := skipWs_le r7
                    simp only [List.length_cons]
                    omega
                  · simp at h
              · simp at h
            · simp at h
          · simp at h
        · simp at h
      · simp at h
    · -- parseArrayRest
      intro s v r h
      cases s with
      | nil => simp [parseArrayRest] at h
      | cons c rr =>
        rw [parseArrayRest.eq_def] at h
        simp only at h
        simp only [List.length_cons]
        split_ifs at h with hc
        · obtain ⟨-, rfl⟩ := Option.some.inj h |> Prod.mk.inj
          omega
        · split at h
          · rename_i vs r2 heq
            obtain ⟨-, rfl⟩ := Option.some.inj h |> Prod.mk.inj
            have hb := ihe _ _ _ heq
            simp only [List.length_cons] at hb
            omega
          · simp at h
    · -- parseElems
      intro s vs r h
      rw [parseElems.eq_def] at h
      simp only at h
      split at h
      · rename_i v5 rv heq1
        have hb1 := ihv _ _ _ heq1
        split at h
        · rename_i c3 r3 heq2
          have hL2 := congrArg List.length heq2
          simp only [List.length_cons] at hL2
          have hW2 := skipWs_le rv
          split_ifs at h with hbk hcomma
          · obtain ⟨-, rfl⟩ := Option.some.inj h |> Prod.mk.inj
            omega
          · split at h
            · rename_i vs4 r4 heq3
              obtain ⟨-, rfl⟩ := Option.some.inj h |> Prod.mk.inj
              have hb3 := ihe _ _ _ heq3
              have hW3 := skipWs_le r3
              omega
            · simp at h
        · simp at h
      · simp at h

theorem raw_decode_bounds (s : List Char) (v : JsonV) (n : Nat)
    (h : raw_decode s = some (v, n)) : 1 ≤ n ∧ n ≤ s.length := by
  rw [raw_decode] at h
  split at h
  · rename_i v2 r heq
    obtain ⟨-, rfl⟩ := Option.some.inj h |> Prod.mk.inj
    have hb := (parse_bounds (2 * s.length + 2)).1 s v2 r heq
    omega
  · simp at h

theorem idxOfBrace_lt (l : List Char) :
    ∀ i, idxOfBrace l = some i → i < l.length := by
  induction l with
  | nil => intro i h; simp [idxOfBrace] at h
  | cons c r ih =>
    intro i h
    simp only [idxOfBrace] at h
    split_ifs at h with hc
    · obtain rfl := Option.some.inj h
      simp
    · simp only [Option.map_eq_some'] at h
      obtain ⟨j, hj, rfl⟩ := h
      have := ih j hj
      simp only [List.length_cons]
      omega

theorem findBrace_bounds (text : List Char) (pos m : Nat)
    (h : findBrace text pos = some m) : pos ≤ m ∧ m < text.length := by
  rw [findBrace] at h
  simp only [Option.map_eq_some'] at h
  obtain ⟨i, hi, rfl⟩ := h
  have h1 := idxOfBrace_lt _ _ hi
  have h2 : (text.drop pos).length = text.length - pos := List.length_drop pos text
  omega

theorem extractStep_shape (text : List Char) (pos : Nat) (yv : Option JsonV) (pos2 : Nat)
    (h : extractStep text pos = some (yv, pos2)) :
    ∃ m, findBrace text pos = some m ∧ pos ≤ m ∧ m < text.length ∧ pos < pos2 := by
  rw [extractStep] at h
  split at h
  · simp at h
  · rename_i m heq
    obtain ⟨h1, h2⟩ := findBrace_bounds text pos m heq
    refine ⟨m, heq, h1, h2, ?_⟩
    split at h
    · rename_i v n heq2
      obtain ⟨-, rfl⟩ := Option.some.inj h |> Prod.mk.inj
      have := raw_decode_bounds _ _ _ heq2
      omega
    · obtain ⟨-, rfl⟩ := Option.some.inj h |> Prod.mk.inj
      omega

theorem extractLoopF_total :
    ∀ (fuel : Nat) (text : List Char) (pos : Nat), text.length - pos < fuel →
      (extractLoopF fuel text pos).isSome := by
  intro fuel
  induction fuel with
  | zero => intro text pos h; omega
  | succ n ih =>
    intro text pos h
    rw [extractLoopF]
    cases hstep : extractStep text pos with
    | none => simp
    | some p =>
      obtain ⟨yv, pos2⟩ := p
      obtain ⟨m, hfind, hm1, hm2, hlt⟩ := extractStep_shape text pos yv pos2 hstep
      have hrec := ih text pos2 (by omega)
      simp only [Option.isSome_map']
      exact hrec

theorem open_file_foldl_skip :
    ∀ (g : List (List Char)) (n : Nat) (acc : Option (List Char)), 1 ≤ n →
      (g.enumFrom n).foldl
          (fun acc p => if p.1 = 0 then some (open_file_line p.2) else acc) acc = acc := by
  intro g
  induction g with
  | nil => intro n acc hn; rfl
  | cons l ls ih =>
    intro n acc hn
    simp only [List.enumFrom, List.foldl_cons]
    rw [if_neg (by omega)]
    exact ih (n + 1) acc (by omega)

theorem parserSplit_foldl_skip :
    ∀ (g : List JsonV) (n : Nat) (m : Option JsonV) (acc : List JsonV), 1 ≤ n →
      (g.enumFrom n).foldl
          (fun acc p => if p.1 = 0 then (some p.2, acc.2) else (acc.1, acc.2 ++ [p.2]))
          (m, acc)
        = (m, acc ++ g) := by
  intro g
  induction g with
  | nil => intro n m acc hn; simp [List.enumFrom]
  | cons o os ih =>
    intro n m acc hn
    simp only [List.enumFrom, List.foldl_cons]
    rw [if_neg (by omega)]
    rw [ih (n + 1) m (acc ++ [o]) (by omega)]
    simp

theorem parserSplit_cons (m : JsonV) (bd : List JsonV) :
    parserSplit (m :: bd) = (some m, bd) := by
  rw [parserSplit]
  have : (m :: bd).enum = (0, m) :: bd.enumFrom 1 := rfl
  rw [this]
  simp only [List.foldl_cons, if_pos rfl]
  exact parserSplit_foldl_skip bd 1 (some m) [] le_rfl

theorem open_file_inner_fold (record : List Char) :
    ∀ acc : List Char,
      record.foldl
          (fun acc2 letter =>
            if letter.toNat < 34 ∨ letter.toNat > 127 then acc2 else acc2 ++ [letter])
          acc
        = acc ++ record.filter (fun c => 34 ≤ c.toNat && c.toNat ≤ 127) := by
  induction record with
  | nil => intro acc; simp
  | cons c r ih =>
    intro acc
    simp only [List.foldl_cons]
    by_cases h : c.toNat < 34 ∨ c.toNat > 127
    · rw [if_pos h, ih acc, List.filter_cons,
        if_neg (by simp only [Bool.and_eq_true, decide_eq_true_eq]; omega)]
    · rw [if_neg h, ih (acc ++ [c]), List.filter_cons,
        if_pos (by simp only [Bool.and_eq_true, decide_eq_true_eq]; omega)]
      simp

theorem open_file_outer_fold (pieces : List (List Char)) :
    ∀ acc : List Char,
      pieces.foldl
          (fun acc record =>
            record.foldl
              (fun acc2 letter =>
                if letter.toNat < 34 ∨ letter.toNat > 127 then acc2 else acc2 ++ [letter])
              acc)
          acc
        = acc ++ pieces.flatten.filter (fun c => 34 ≤ c.toNat && c.toNat ≤ 127) := by
  induction pieces with
  | nil => intro acc; simp
  | cons p ps ih =>
    intro acc
    simp only [List.foldl_cons]
    rw [open_file_inner_fold p acc, ih]
    simp [List.filter_append, List.append_assoc]

theorem pySplitAux_join (l : List Char) :
    ∀ cur : List Char,
      (pySplitAux l cur).flatten = cur.reverse ++ l.filter (fun c => ¬ pyIsSpace c) := by
  induction l with
  | nil =>
    intro cur
    rw [pySplitAux]
    cases cur with
    | nil => simp
    | cons c cs => simp
  | cons c rest ih =>
    intro cur
    rw [pySplitAux]
    by_cases hws : pyIsSpace c
    · rw [if_pos hws]
      have hfl : (c :: rest).filter (fun c => ¬ pyIsSpace c) = rest.filter (fun c => ¬ pyIsSpace c) := by
        simp [List.filter_cons, hws]
      rw [hfl]
      cases hcur : cur.isEmpty
      · simp only [hcur, Bool.false_eq_true, if_false, List.flatten_cons]
        rw [ih []]
        simp
      · have hc : cur = [] := by simpa using hcur
        subst hc
        simp [ih []]
    · rw [if_neg hws]
      rw [ih (c :: cur)]
      simp [List.filter_cons, hws]

theorem pyIsSpace_not_in_band (c : Char) (h : pyIsSpace c = true) :
    (34 ≤ c.toNat && c.toNat ≤ 127) = false := by
  simp only [pyIsSpace, List.mem_cons, decide_eq_true_eq, List.not_mem_nil, or_false] at h
  simp only [Bool.and_eq_true, decide_eq_true_eq, Bool.and_eq_false_iff,
    decide_eq_false_iff_not]
  omega

/-- C1: the claim reads the retained band as code points 33 through 127
inclusive, but `Parser._open_file` drops every character with code point
below 34: the character `!` (code point 33) is dropped, so the claimed
membership equivalence fails at code point 33. -/
theorem c1_counterexample : open_file_line ['!'] = [] ∧ ('!').toNat = 33 ∧
    (33 ≤ 33 ∧ 33 ≤ 127) := ⟨rfl, rfl, by omega⟩

/-- C1 (amended): for every input line, the extractor's output consists of
exactly those characters of the line whose code point lies in the band 34
through 127 inclusive, in their original order; every character outside
that band is dropped, not replaced. -/
theorem c1_band_filter (line : List Char) :
    open_file_line line = line.filter (fun c => 34 ≤ c.toNat && c.toNat ≤ 127) := by
  rw [open_file_line, pySplitWs, open_file_outer_fold, pySplitAux_join]
  simp only [List.reverse_nil, List.nil_append]
  rw [List.filter_filter]
  apply List.filter_congr
  intro c _
  cases hws : pyIsSpace c
  · simp
  · rw [pyIsSpace_not_in_band c hws]
    simp

/-- C10: for a file with no lines at all, `Parser._open_file` never binds
its accumulator, so the final join raises an unbound-variable error
(modelled by `none`); whenever a first line exists the extractor returns
exactly the filtered first line, so the empty-output path is reached only
when the first line filters to nothing. -/
theorem c10_empty_file_unbound :
    open_file [] = none ∧
    (∀ (line : List Char) (rest : List (List Char)),
      open_file (line :: rest) = some (open_file_line line)) := by
  constructor
  · rfl
  · intro line rest
    rw [open_file]
    have h : (line :: rest).enum = (0, line) :: rest.enumFrom 1 := rfl
    rw [h]
    simp only [List.foldl_cons, if_pos rfl]
    exact open_file_foldl_skip rest 1 _ le_rfl

theorem except_bind_ok {ε α β : Type} (x : Except ε α) (f : α → Except ε β) (b : β) :
    (x >>= f = Except.ok b) ↔ ∃ a, x = Except.ok a ∧ f a = Except.ok b := by
  cases x <;> simp [Bind.bind, Except.bind]

/-- C2: the claim says a personal map with two keys raises an "ambiguous
account" condition; the code instead takes `list(raw_data.keys())[0]` and
proceeds: at this concrete two-key personal map all three extractors
succeed. -/
theorem c2_counterexample :
    (get_battle_performance
        [JsonV.obj [("personal",
          JsonV.obj [("100", JsonV.obj []), ("200", JsonV.obj [("kills", JsonV.num 5)])])]]).isOk
      = true ∧
    (get_battle_economy
        [JsonV.obj [("personal",
          JsonV.obj [("100", JsonV.obj []), ("200", JsonV.obj [("kills", JsonV.num 5)])])]]).isOk
      = true ∧
    (get_battle_xp
        [JsonV.obj [("personal",
          JsonV.obj [("100", JsonV.obj []), ("200", JsonV.obj [("kills", JsonV.num 5)])])]]).isOk
      = true := ⟨rfl, rfl, rfl⟩

/-- C2 (amended): when the personal map has two (distinct) keys, the
performance/economy/XP extractors never raise an ambiguity condition: they
silently proceed using the FIRST key in insertion order, building their
records from its value. -/
theorem c2_first_key (k1 k2 : String) (v1 v2 : List (String × JsonV)) (rest : List JsonV)
    (hne : k1 ≠ k2) :
    get_battle_performance
        (JsonV.obj [("personal", JsonV.obj [(k1, JsonV.obj v1), (k2, JsonV.obj v2)])] :: rest)
      = Except.ok (performanceRecord v1) ∧
    get_battle_economy
        (JsonV.obj [("personal", JsonV.obj [(k1, JsonV.obj v1), (k2, JsonV.obj v2)])] :: rest)
      = economyRecord v1 ∧
    get_battle_xp
        (JsonV.obj [("personal", JsonV.obj [(k1, JsonV.obj v1), (k2, JsonV.obj v2)])] :: rest)
      = Except.ok (xpRecord v1) := by
  refine ⟨?_, ?_, ?_⟩ <;>
    simp [get_battle_performance, get_battle_economy, get_battle_xp, personalSource,
      listIdx, dictGetItem, asDict, lookupField, Bind.bind, Except.bind, pure, Except.pure]

/-- C2 witness: the amended behaviour at a concrete two-key personal
map. -/
theorem c2_first_key_witness :
    get_battle_performance
        (JsonV.obj [("personal", JsonV.obj [("100", JsonV.obj []), ("200", JsonV.obj [])])]
          :: ([] : List JsonV))
      = Except.ok (performanceRecord []) ∧
    get_battle_economy
        (JsonV.obj [("personal", JsonV.obj [("100", JsonV.obj []), ("200", JsonV.obj [])])]
          :: ([] : List JsonV))
      = economyRecord [] ∧
    get_battle_xp
        (JsonV.obj [("personal", JsonV.obj [("100", JsonV.obj []), ("200", JsonV.obj [])])]
          :: ([] : List JsonV))
      = Except.ok (xpRecord []) :=
  c2_first_key "100" "200" [] [] [] (by decide)

theorem buildPlayer_fields (data : List JsonV) (pid : String) (rec : List (String × JsonV))
    (h : buildPlayer data pid = Except.ok rec) :
    (∃ n : Int, pyInt pid = Except.ok n ∧ List.lookup "id" rec = some (JsonV.num (n : Rat))) ∧
    (∃ k, killsExpr data pid = Except.ok k ∧ List.lookup "kills" rec = some k) := by
  rw [buildPlayer] at h
  rw [except_bind_ok] at h
  obtain ⟨d1, hd1, h⟩ := h
  try simp only at h
  rw [except_bind_ok] at h
  obtain ⟨raw, hraw, h⟩ := h
  try simp only at h
  rw [except_bind_ok] at h
  obtain ⟨rawFs, hrawFs, h⟩ := h
  try simp only at h
  rw [except_bind_ok] at h
  obtain ⟨vt, hvt, h⟩ := h
  try simp only at h
  rw [except_bind_ok] at h
  obtain ⟨idv, hidv, h⟩ := h
  try simp only at h
  rw [except_bind_ok] at h
  obtain ⟨team, hteam, h⟩ := h
  try simp only at h
  rw [except_bind_ok] at h
  obtain ⟨clan, hclan, h⟩ := h
  try simp only at h
  rw [except_bind_ok] at h
  obtain ⟨isAlive, hisAlive, h⟩ := h
  try simp only at h
  rw [except_bind_ok] at h
  obtain ⟨forbid, hforbid, h⟩ := h
  try simp only at h
  rw [except_bind_ok] at h
  obtain ⟨igr, higr, h⟩ := h
  try simp only at h
  rw [except_bind_ok] at h
  obtain ⟨istk, histk, h⟩ := h
  try simp only at h
  rw [except_bind_ok] at h
  obtain ⟨nm, hnm, h⟩ := h
  try simp only at h
  rw [except_bind_ok] at h
  obtain ⟨kills, hkills, h⟩ := h
  try simp only at h
  simp only [pure, Except.pure, Except.ok.injEq] at h
  subst h
  refine ⟨⟨idv, hidv, ?_⟩, ⟨kills, hkills, ?_⟩⟩ <;> simp [List.lookup]

/-- C7: when a player id is a key of the roster map but absent from the
kills map (element 2 of the battle-data list), the built player record's
kill-count field is exactly the string `N/A`, which is distinguishable
from the integer 0; it is never defaulted to zero. -/
theorem c7_missing_kill_marker (data : List JsonV) (kfields : List (String × JsonV))
    (pid : String) (rec : List (String × JsonV))
    (h2 : data[2]? = some (JsonV.obj kfields))
    (habs : lookupField kfields pid = none)
    (h : buildPlayer data pid = Except.ok rec) :
    List.lookup "kills" rec = some (JsonV.str "N/A") ∧ JsonV.str "N/A" ≠ JsonV.num 0 := by
  obtain ⟨-, k, hk, hlook⟩ := buildPlayer_fields data pid rec h
  have hke : killsExpr data pid = Except.ok (JsonV.str "N/A") := by
    rw [killsExpr]
    simp [listIdx, h2, asDict, habs, dictGetItem, lookupField, Bind.bind, Except.bind]
  rw [hke] at hk
  obtain rfl := Except.ok.inj hk
  exact ⟨hlook, by simp⟩

/-- C7 witness: a concrete roster entry with id `5` absent from the kills
map receives the `N/A` marker. -/
theorem c7_missing_kill_marker_witness :
    List.lookup "kills"
        [("id", JsonV.num 5), ("fake_name", JsonV.str "None"), ("team", JsonV.num 1),
          ("clan_tag", JsonV.str "X"), ("vehicle_type", JsonV.str "ussr:T-62A"),
          ("vehicle_tag", JsonV.str "T-62A"), ("vehicle_nation", JsonV.str "ussr"),
          ("is_alive", JsonV.bool true), ("forbid_in_battle_invitations", JsonV.bool false),
          ("igr_type", JsonV.num 0), ("is_team_killer", JsonV.bool false),
          ("name", JsonV.str "player"), ("kills", JsonV.str "N/A")]
      = some (JsonV.str "N/A") ∧ JsonV.str "N/A" ≠ JsonV.num 0 :=
  c7_missing_kill_marker
    [JsonV.null,
      JsonV.obj [("5",
        JsonV.obj [("vehicleType", JsonV.str "ussr:T-62A"), ("team", JsonV.num 1),
          ("clanAbbrev", JsonV.str "X"), ("isAlive", JsonV.bool true),
          ("forbidInBattleInvitations", JsonV.bool false), ("igrType", JsonV.num 0),
          ("isTeamKiller", JsonV.num 0), ("name", JsonV.str "player")])],
      JsonV.obj []]
    [] "5"
    [("id", JsonV.num 5), ("fake_name", JsonV.str "None"), ("team", JsonV.num 1),
      ("clan_tag", JsonV.str "X"), ("vehicle_type", JsonV.str "ussr:T-62A"),
      ("vehicle_tag", JsonV.str "T-62A"), ("vehicle_nation", JsonV.str "ussr"),
      ("is_alive", JsonV.bool true), ("forbid_in_battle_invitations", JsonV.bool false),
      ("igr_type", JsonV.num 0), ("is_team_killer", JsonV.bool false),
      ("name", JsonV.str "player"), ("kills", JsonV.str "N/A")]
    rfl rfl rfl

theorem buildPlayers_fields (data : List JsonV) :
    ∀ (pids : List String) (out : List (List (String × JsonV))),
      buildPlayers data pids = Except.ok out →
      out.map (fun r => List.lookup "id" r)
          = pids.map (fun pid => (pyInt pid).toOption.map (fun n => JsonV.num (n : Rat))) ∧
      out.map (fun r => List.lookup "kills" r)
          = pids.map (fun pid => (killsExpr data pid).toOption) := by
  intro pids
  induction pids with
  | nil =>
    intro out h
    have : Except.ok ([] : List (List (String × JsonV))) = Except.ok out := h
    obtain rfl := Except.ok.inj this
    simp
  | cons pid rest ih =>
    intro out h
    rw [buildPlayers] at h
    rw [except_bind_ok] at h
    obtain ⟨r, hr, h⟩ := h
    try simp only at h
    rw [except_bind_ok] at h
    obtain ⟨rs, hrs, h⟩ := h
    try simp only at h
    simp only [pure, Except.pure, Except.ok.injEq] at h
    subst h
    obtain ⟨⟨n, hn, hid⟩, ⟨k, hk, hkl⟩⟩ := buildPlayer_fields data pid r hr
    obtain ⟨ih1, ih2⟩ := ih rs hrs
    simp [List.map_cons, hid, hkl, hn, hk, ih1, ih2, Except.toOption]

/-- C5: concrete four-object capture refuting the claimed numbering.  With
object 0 the metadata, object 1 has the single key `111` and object 2 the
single key `222`; the code reads the roster from battle-data element 1
(overall object 2, key `222`) and kills from element 2 (overall object 3),
so the produced roster has id 222 with 7 kills — not id 111 as the claim's
numbering would demand. -/
theorem c5_counterexample :
    parserSplit
        [JsonV.null,
          JsonV.obj [("111", JsonV.null)],
          JsonV.obj [("222",
            JsonV.obj [("vehicleType", JsonV.str "germany:E-100"), ("team", JsonV.num 1),
              ("clanAbbrev", JsonV.str "X"), ("isAlive", JsonV.bool true),
              ("forbidInBattleInvitations", JsonV.bool false), ("igrType", JsonV.num 0),
              ("isTeamKiller", JsonV.num 0), ("name", JsonV.str "bob")])],
          JsonV.obj [("222", JsonV.obj [("frags", JsonV.num 7)])]]
      = (some JsonV.null,
          [JsonV.obj [("111", JsonV.null)],
            JsonV.obj [("222",
              JsonV.obj [("vehicleType", JsonV.str "germany:E-100"), ("team", JsonV.num 1),
                ("clanAbbrev", JsonV.str "X"), ("isAlive", JsonV.bool true),
                ("forbidInBattleInvitations", JsonV.bool false), ("igrType", JsonV.num 0),
                ("isTeamKiller", JsonV.num 0), ("name", JsonV.str "bob")])],
            JsonV.obj [("222", JsonV.obj [("frags", JsonV.num 7)])]]) ∧
    get_battle_players
        [JsonV.obj [("111", JsonV.null)],
          JsonV.obj [("222",
            JsonV.obj [("vehicleType", JsonV.str "germany:E-100"), ("team", JsonV.num 1),
              ("clanAbbrev", JsonV.str "X"), ("isAlive", JsonV.bool true),
              ("forbidInBattleInvitations", JsonV.bool false), ("igrType", JsonV.num 0),
              ("isTeamKiller", JsonV.num 0), ("name", JsonV.str "bob")])],
          JsonV.obj [("222", JsonV.obj [("frags", JsonV.num 7)])]]
      = Except.ok
          [[("id", JsonV.num 222), ("fake_name", JsonV.str "None"), ("team", JsonV.num 1),
            ("clan_tag", JsonV.str "X"), ("vehicle_type", JsonV.str "germany:E-100"),
            ("vehicle_tag", JsonV.str "E-100"), ("vehicle_nation", JsonV.str "germany"),
            ("is_alive", JsonV.bool true), ("forbid_in_battle_invitations", JsonV.bool false),
            ("igr_type", JsonV.num 0), ("is_team_killer", JsonV.bool false),
            ("name", JsonV.str "bob"), ("kills", JsonV.num 7)]] ∧
    List.lookup "id"
        [("id", JsonV.num 222), ("fake_name", JsonV.str "None"), ("team", JsonV.num 1),
          ("clan_tag", JsonV.str "X"), ("vehicle_type", JsonV.str "germany:E-100"),
          ("vehicle_tag", JsonV.str "E-100"), ("vehicle_nation", JsonV.str "germany"),
          ("is_alive", JsonV.bool true), ("forbid_in_battle_invitations", JsonV.bool false),
          ("igr_type", JsonV.num 0), ("is_team_killer", JsonV.bool false),
          ("name", JsonV.str "bob"), ("kills", JsonV.num 7)]
      ≠ some (JsonV.num 111) := by
  refine ⟨rfl, rfl, ?_⟩
  intro hcontra
  simp only [List.lookup] at hcontra
  norm_num at hcontra

/-- C5 (amended): with objects numbered so that object 0 is the metadata
object, the participant roster is read from object 2 (battle-data element
1) and each participant's kill count from object 3 (battle-data element 2,
through the `killsExpr` lookup): `Parser.__init__` makes battle-data the
tail of the object sequence, and for a battle-data list whose element 1 is
a map, the produced records' ids are exactly that map's keys (as parsed
integers) and their kill fields come from element 2. -/
theorem c5_roster_object2 :
    (∀ (m : JsonV) (bd : List JsonV), parserSplit (m :: bd) = (some m, bd)) ∧
    (∀ (o1 ko : JsonV) (roster : List (String × JsonV)) (rest : List JsonV)
        (out : List (List (String × JsonV))),
      get_battle_players (o1 :: JsonV.obj roster :: ko :: rest) = Except.ok out →
      out.map (fun r => List.lookup "id" r)
          = roster.map (fun p => (pyInt p.1).toOption.map (fun n => JsonV.num (n : Rat))) ∧
      out.map (fun r => List.lookup "kills" r)
          = roster.map (fun p =>
              (killsExpr (o1 :: JsonV.obj roster :: ko :: rest) p.1).toOption)) := by
  constructor
  · exact parserSplit_cons
  · intro o1 ko roster rest out h
    rw [get_battle_players] at h
    rw [except_bind_ok] at h
    obtain ⟨d1, hd1, h⟩ := h
    have hd1' : listIdx (o1 :: JsonV.obj roster :: ko :: rest) 1 = Except.ok (JsonV.obj roster) := by
      simp [listIdx]
    rw [hd1'] at hd1
    obtain rfl := Except.ok.inj hd1
    try simp only at h
    rw [except_bind_ok] at h
    obtain ⟨fs, hfs, h⟩ := h
    have hfs' : asDict (JsonV.obj roster) = Except.ok roster := rfl
    rw [hfs'] at hfs
    obtain rfl := Except.ok.inj hfs
    try simp only at h
    obtain ⟨h1, h2⟩ := buildPlayers_fields _ (roster.map Prod.fst) out h
    rw [h1, h2]
    constructor <;> rw [List.map_map] <;> rfl

/-- C5 witness: the amended numbering at the concrete four-object
capture. -/
theorem c5_roster_object2_witness :
    [[("id", JsonV.num 222), ("fake_name", JsonV.str "None"), ("team", JsonV.num 1),
      ("clan_tag", JsonV.str "X"), ("vehicle_type", JsonV.str "germany:E-100"),
      ("vehicle_tag", JsonV.str "E-100"), ("vehicle_nation", JsonV.str "germany"),
      ("is_alive", JsonV.bool true), ("forbid_in_battle_invitations", JsonV.bool false),
      ("igr_type", JsonV.num 0), ("is_team_killer", JsonV.bool false),
      ("name", JsonV.str "bob"), ("kills", JsonV.num 7)]].map
        (fun r => List.lookup "id" r)
      = [("222",
          JsonV.obj [("vehicleType", JsonV.str "germany:E-100"), ("team", JsonV.num 1),
            ("clanAbbrev", JsonV.str "X"), ("isAlive", JsonV.bool true),
            ("forbidInBattleInvitations", JsonV.bool false), ("igrType", JsonV.num 0),
            ("isTeamKiller", JsonV.num 0), ("name", JsonV.str "bob")])].map
          (fun p => (pyInt p.1).toOption.map (fun n => JsonV.num (n : Rat))) ∧
    [[("id", JsonV.num 222), ("fake_name", JsonV.str "None"), ("team", JsonV.num 1),
      ("clan_tag", JsonV.str "X"), ("vehicle_type", JsonV.str "germany:E-100"),
      ("vehicle_tag", JsonV.str "E-100"), ("vehicle_nation", JsonV.str "germany"),
      ("is_alive", JsonV.bool true), ("forbid_in_battle_invitations", JsonV.bool false),
      ("igr_type", JsonV.num 0), ("is_team_killer", JsonV.bool false),
      ("name", JsonV.str "bob"), ("kills", JsonV.num 7)]].map
        (fun r => List.lookup "kills" r)
      = [("222",
          JsonV.obj [("vehicleType", JsonV.str "germany:E-100"), ("team", JsonV.num 1),
            ("clanAbbrev", JsonV.str "X"), ("isAlive", JsonV.bool true),
            ("forbidInBattleInvitations", JsonV.bool false), ("igrType", JsonV.num 0),
            ("isTeamKiller", JsonV.num 0), ("name", JsonV.str "bob")])].map
          (fun p =>
            (killsExpr
                [JsonV.obj [("111", JsonV.null)],
                  JsonV.obj [("222",
                    JsonV.obj [("vehicleType", JsonV.str "germany:E-100"), ("team", JsonV.num 1),
                      ("clanAbbrev", JsonV.str "X"), ("isAlive", JsonV.bool true),
                      ("forbidInBattleInvitations", JsonV.bool false), ("igrType", JsonV.num 0),
                      ("isTeamKiller", JsonV.num 0), ("name", JsonV.str "bob")])],
                  JsonV.obj [("222", JsonV.obj [("frags", JsonV.num 7)])]]
              p.1).toOption) :=
  c5_roster_object2.2
    (JsonV.obj [("111", JsonV.null)])
    (JsonV.obj [("222", JsonV.obj [("frags", JsonV.num 7)])])
    [("222",
      JsonV.obj [("vehicleType", JsonV.str "germany:E-100"), ("team", JsonV.num 1),
        ("clanAbbrev", JsonV.str "X"), ("isAlive", JsonV.bool true),
        ("forbidInBattleInvitations", JsonV.bool false), ("igrType", JsonV.num 0),
        ("isTeamKiller", JsonV.num 0), ("name", JsonV.str "bob")])]
    []
    [[("id", JsonV.num 222), ("fake_name", JsonV.str "None"), ("team", JsonV.num 1),
      ("clan_tag", JsonV.str "X"), ("vehicle_type", JsonV.str "germany:E-100"),
      ("vehicle_tag", JsonV.str "E-100"), ("vehicle_nation", JsonV.str "germany"),
      ("is_alive", JsonV.bool true), ("forbid_in_battle_invitations", JsonV.bool false),
      ("igr_type", JsonV.num 0), ("is_team_killer", JsonV.bool false),
      ("name", JsonV.str "bob"), ("kills", JsonV.num 7)]]
    rfl

/-- C9: the claim quantifies over ALL captures with two or three decoded
objects, but a three-object capture whose roster object (battle-data
element 1) is an empty map passes the guard and returns an empty roster
with no indexing error at all, refuting the universal claim. -/
theorem c9_counterexample :
    parserSplit [JsonV.null, JsonV.null, JsonV.obj []]
      = (some JsonV.null, [JsonV.null, JsonV.obj []]) ∧
    replayinfo_check (Except.ok (some JsonV.null, [JsonV.null, JsonV.obj []]))
      = Except.ok (some JsonV.null, [JsonV.null, JsonV.obj []]) ∧
    get_battle_players [JsonV.null, JsonV.obj []] = Except.ok [] :=
  ⟨rfl, rfl, rfl⟩

/-- C9 (amended): the guard of `WoT.replayinfo` passes whenever
battle-data is non-empty; a capture with exactly two decoded objects
(battle-data of one element) always makes `get_battle_players` raise
`IndexError`, and with three decoded objects it raises `IndexError`
provided the roster map has a well-formed participant entry; `IndexError`
is not one of the named user-facing replay conditions. -/
theorem c9_short_battle_data :
    (∀ (md : Option JsonV) (bd : List JsonV), bd ≠ [] →
      replayinfo_check (Except.ok (md, bd)) = Except.ok (md, bd)) ∧
    (∀ o1 : JsonV, get_battle_players [o1] = Except.error PyErr.indexError) ∧
    (∀ o1 : JsonV,
      get_battle_players
          [o1, JsonV.obj [("1",
            JsonV.obj [("vehicleType", JsonV.str "a:b"), ("team", JsonV.num 1),
              ("clanAbbrev", JsonV.str ""), ("isAlive", JsonV.bool true),
              ("forbidInBattleInvitations", JsonV.bool false), ("igrType", JsonV.num 0),
              ("isTeamKiller", JsonV.num 0), ("name", JsonV.str "p")])]]
        = Except.error PyErr.indexError) ∧
    (PyErr.indexError ≠ PyErr.replayNoData ∧ PyErr.indexError ≠ PyErr.replayCouldntExtract) := by
  refine ⟨?_, ?_, ?_, by simp, by simp⟩
  · intro md bd hne
    cases bd with
    | nil => exact absurd rfl hne
    | cons b bs => rfl
  · intro o1
    rfl
  · intro o1
    rfl

/-- C9 witness: the amended guard behaviour at a concrete non-empty
battle-data list. -/
theorem c9_short_battle_data_witness :
    replayinfo_check (Except.ok ((none : Option JsonV), [JsonV.null]))
      = Except.ok (none, [JsonV.null]) :=
  c9_short_battle_data.1 none [JsonV.null] (by simp)

/-- C4: code bug.  A capture decoding to exactly one JSON object leaves
battle-data empty; the guard in `WoT.replayinfo` raises the distinct
no-data `ReplayError` INSIDE a bare `except` block that catches it and
replaces it with the generic "Couldnt extract data from replay" error, so
the distinct condition never reaches the caller. -/
theorem c4_swallowed_no_data :
    extract_json_objects ([lbrace] ++ "\"dateTime\":1".toList ++ [rbrace])
      = [JsonV.obj [("dateTime", JsonV.num 1)]] ∧
    parserSplit [JsonV.obj [("dateTime", JsonV.num 1)]]
      = (some (JsonV.obj [("dateTime", JsonV.num 1)]), []) ∧
    replayinfo_check (Except.ok (some (JsonV.obj [("dateTime", JsonV.num 1)]), []))
      = Except.error PyErr.replayCouldntExtract ∧
    PyErr.replayCouldntExtract ≠ PyErr.replayNoData :=
  ⟨rfl, rfl, rfl, by simp⟩

/-- C3: at every decode failure the scanner resumes exactly one character
past the failed candidate brace, and on the capture text
`(lbrace)"a":1(rbrace)garbage(lbrace)"b":2(rbrace)` it recovers exactly
the two objects, in order. -/
theorem c3_skip_one_on_failure :
    (∀ (text : List Char) (pos m : Nat),
      findBrace text pos = some m → raw_decode (text.drop m) = none →
      extractStep text pos = some (none, m + 1)) ∧
    extract_json_objects
        ([lbrace] ++ "\"a\":1".toList ++ [rbrace] ++ "garbage".toList
          ++ [lbrace] ++ "\"b\":2".toList ++ [rbrace])
      = [JsonV.obj [("a", JsonV.num 1)], JsonV.obj [("b", JsonV.num 2)]] := by
  constructor
  · intro text pos m hf hd
    simp [extractStep, hf, hd]
  · rfl

/-- C3 witness: a lone stray brace followed by a non-JSON character fails
to decode and the scanner resumes at the next position. -/
theorem c3_skip_one_on_failure_witness :
    extractStep [lbrace, 'x'] 0 = some (none, 0 + 1) :=
  c3_skip_one_on_failure.1 [lbrace, 'x'] 0 0 rfl rfl

/-- C6: each loop iteration of the scanner strictly increases the scan
position (by the decoder's consumed length on success, by one on failure),
the loop ends exactly when no opening brace remains, and the whole scan
terminates within `length + 1` iterations on every finite text. -/
theorem c6_scanner_terminates :
    (∀ (text : List Char) (pos m : Nat) (v : JsonV) (n : Nat),
      findBrace text pos = some m → raw_decode (text.drop m) = some (v, n) →
      extractStep text pos = some (some v, m + n) ∧ pos < m + n) ∧
    (∀ (text : List Char) (pos m : Nat),
      findBrace text pos = some m → raw_decode (text.drop m) = none →
      extractStep text pos = some (none, m + 1) ∧ pos < m + 1) ∧
    (∀ (text : List Char) (pos : Nat),
      findBrace text pos = none → extractStep text pos = none) ∧
    (∀ text : List Char, (extractLoopF (text.length + 1) text 0).isSome) := by
  refine ⟨?_, ?_, ?_, ?_⟩
  · intro text pos m v n hf hd
    refine ⟨by simp [extractStep, hf, hd], ?_⟩
    have h1 := findBrace_bounds text pos m hf
    have h2 := raw_decode_bounds _ _ _ hd
    omega
  · intro text pos m hf hd
    refine ⟨by simp [extractStep, hf, hd], ?_⟩
    have h1 := findBrace_bounds text pos m hf
    omega
  · intro text pos hf
    simp [extractStep, hf]
  · intro text
    exact extractLoopF_total (text.length + 1) text 0 (by omega)

/-- C6 witness: the success step, failure step, normal end, and whole-scan
termination at concrete texts. -/
theorem c6_scanner_terminates_witness :
    (extractStep [lbrace, rbrace] 0 = some (some (JsonV.obj []), 0 + 2) ∧ 0 < 0 + 2) ∧
    (extractStep [lbrace] 0 = some (none, 0 + 1) ∧ 0 < 0 + 1) ∧
    extractStep [] 0 = none ∧
    (extractLoopF (([lbrace, rbrace] : List Char).length + 1) [lbrace, rbrace] 0).isSome :=
  ⟨c6_scanner_terminates.1 [lbrace, rbrace] 0 0 (JsonV.obj []) 2 rfl rfl,
   c6_scanner_terminates.2.1 [lbrace] 0 0 rfl rfl,
   c6_scanner_terminates.2.2.1 [] 0 rfl,
   c6_scanner_terminates.2.2.2 [lbrace, rbrace]⟩

set_option maxHeartbeats 2000000 in
/-- C8: every numeric or boolean field of the performance, economy and XP
records defaults to exactly 0 (or false) when its source key is absent:
all economy and XP table defaults are the number 0; every performance
default is 0, false, or the (non-numeric) achievements list; a field whose
source key is absent from the source map appears in the built record
carrying exactly its default; the two irregular resupply fields default to
0 when absent and economy construction succeeds; and record keys are free
of duplicates, so the defaulted pair is the field's unique binding. -/
theorem c8_absent_defaults_zero :
    (∀ p ∈ economyFields, p.2.2 = JsonV.num 0) ∧
    (∀ p ∈ xpFields, p.2.2 = JsonV.num 0) ∧
    (∀ p ∈ performanceFields,
        p.2.2 = JsonV.num 0 ∨ p.2.2 = JsonV.bool false ∨ p.1 = "achievements") ∧
    (∀ (fs : List (String × JsonV)) (rk sk : String) (d : JsonV),
        (rk, sk, d) ∈ performanceFields → lookupField fs sk = none →
        (rk, d) ∈ performanceRecord fs) ∧
    (∀ (fs : List (String × JsonV)) (rk sk : String) (d : JsonV),
        (rk, sk, d) ∈ xpFields → lookupField fs sk = none →
        (rk, d) ∈ xpRecord fs) ∧
    (∀ (fs : List (String × JsonV)) (rk sk : String) (d : JsonV),
        (rk, sk, d) ∈ economyFields → lookupField fs sk = none →
        ∀ out, economyRecord fs = Except.ok out → (rk, d) ∈ out) ∧
    (∀ fs : List (String × JsonV),
        lookupField fs "autoLoadCost" = none → lookupField fs "autoEquipCost" = none →
        economyRecord fs
          = Except.ok (("resupply_ammunition", JsonV.num 0) ::
              ("resupply_consumables", JsonV.num 0) ::
              economyFields.map fun f => (f.1, (lookupField fs f.2.1).getD f.2.2))) ∧
    (∀ fs : List (String × JsonV),
        ((performanceRecord fs).map Prod.fst).Nodup ∧ ((xpRecord fs).map Prod.fst).Nodup) ∧
    (∀ (fs : List (String × JsonV)) (out : List (String × JsonV)),
        economyRecord fs = Except.ok out → (out.map Prod.fst).Nodup) := by
  have hecon : ∀ p ∈ economyFields, p.2.2 = JsonV.num 0 := by
    have hb : economyFields.all
        (fun p => match p.2.2 with | JsonV.num q => q == 0 | _ => false) = true := rfl
    intro p hp
    have hm := List.all_eq_true.mp hb p hp
    cases hd : p.2.2 <;> simp_all
  have hxp : ∀ p ∈ xpFields, p.2.2 = JsonV.num 0 := by
    have hb : xpFields.all
        (fun p => match p.2.2 with | JsonV.num q => q == 0 | _ => false) = true := rfl
    intro p hp
    have hm := List.all_eq_true.mp hb p hp
    cases hd : p.2.2 <;> simp_all
  have hperf : ∀ p ∈ performanceFields,
      p.2.2 = JsonV.num 0 ∨ p.2.2 = JsonV.bool false ∨ p.1 = "achievements" := by
    have hb : performanceFields.all
        (fun p => match p.2.2 with
          | JsonV.num q => q == 0
          | JsonV.bool b => !b
          | _ => p.1 == "achievements") = true := rfl
    intro p hp
    have hm := List.all_eq_true.mp hb p hp
    cases hd : p.2.2 <;> simp_all
  have heconRec : ∀ (fs : List (String × JsonV)),
      lookupField fs "autoLoadCost" = none → lookupField fs "autoEquipCost" = none →
      economyRecord fs
        = Except.ok (("resupply_ammunition", JsonV.num 0) ::
            ("resupply_consumables", JsonV.num 0) ::
            economyFields.map fun f => (f.1, (lookupField fs f.2.1).getD f.2.2)) := by
    intro fs h1 h2
    rw [economyRecord]
    simp [h1, h2, pySubscriptZero, Bind.bind, Except.bind, pure, Except.pure]
  refine ⟨hecon, hxp, hperf, ?_, ?_, ?_, heconRec, ?_, ?_⟩
  · intro fs rk sk d hmem habs
    have h := List.mem_map_of_mem (fun f => (f.1, (lookupField fs f.2.1).getD f.2.2)) hmem
    simpa [performanceRecord, habs] using h
  · intro fs rk sk d hmem habs
    have h := List.mem_map_of_mem (fun f => (f.1, (lookupField fs f.2.1).getD f.2.2)) hmem
    simpa [xpRecord, habs] using h
  · intro fs rk sk d hmem habs out hout
    rw [economyRecord] at hout
    rw [except_bind_ok] at hout
    obtain ⟨ra, hra, hout⟩ := hout
    try simp only at hout
    rw [except_bind_ok] at hout
    obtain ⟨rc, hrc, hout⟩ := hout
    try simp only at hout
    simp only [pure, Except.pure, Except.ok.injEq] at hout
    subst hout
    apply List.mem_cons_of_mem
    apply List.mem_cons_of_mem
    have h := List.mem_map_of_mem (fun f => (f.1, (lookupField fs f.2.1).getD f.2.2)) hmem
    simpa [habs] using h
  · intro fs
    constructor
    · have h : (performanceRecord fs).map Prod.fst = performanceFields.map (fun f => f.1) := by
        simp [performanceRecord, List.map_map, Function.comp]
      rw [h]
      decide
    · have h : (xpRecord fs).map Prod.fst = xpFields.map (fun f => f.1) := by
        simp [xpRecord, List.map_map, Function.comp]
      rw [h]
      decide
  · intro fs out hout
    rw [economyRecord] at hout
    rw [except_bind_ok] at hout
    obtain ⟨ra, hra, hout⟩ := hout
    try simp only at hout
    rw [except_bind_ok] at hout
    obtain ⟨rc, hrc, hout⟩ := hout
    try simp only at hout
    simp only [pure, Except.pure, Except.ok.injEq] at hout
    subst hout
    have h : (("resupply_ammunition", ra) :: ("resupply_consumables", rc) ::
          economyFields.map fun f => (f.1, (lookupField fs f.2.1).getD f.2.2)).map Prod.fst
        = "resupply_ammunition" :: "resupply_consumables" :: economyFields.map (fun f => f.1) := by
      simp [List.map_map, Function.comp]
    rw [h]
    decide

/-- C8 witness: with an empty source map, the first field of each record
carries exactly its zero default, and the economy record is built with
both resupply fields defaulted to 0. -/
theorem c8_absent_defaults_zero_witness :
    ("stunned", JsonV.num 0) ∈ performanceRecord [] ∧
    ("order_free_xp_factor_100", JsonV.num 0) ∈ xpRecord [] ∧
    ("credits_to_draw", JsonV.num 0)
      ∈ (("resupply_ammunition", JsonV.num 0) ::
          ("resupply_consumables", JsonV.num 0) ::
          economyFields.map fun f => (f.1, (lookupField [] f.2.1).getD f.2.2)) ∧
    economyRecord []
      = Except.ok (("resupply_ammunition", JsonV.num 0) ::
          ("resupply_consumables", JsonV.num 0) ::
          economyFields.map fun f => (f.1, (lookupField [] f.2.1).getD f.2.2)) :=
  ⟨c8_absent_defaults_zero.2.2.2.1 [] "stunned" "stunned" (JsonV.num 0)
      (List.mem_cons_self _ _) rfl,
   c8_absent_defaults_zero.2.2.2.2.1 [] "order_free_xp_factor_100" "orderFreeXPFactor100"
      (JsonV.num 0) (List.mem_cons_self _ _) rfl,
   c8_absent_defaults_zero.2.2.2.2.2.1 [] "credits_to_draw" "creditsToDraw" (JsonV.num 0)
      (List.mem_cons_self _ _) rfl _
      (c8_absent_defaults_zero.2.2.2.2.2.2.1 [] rfl rfl),
   c8_absent_defaults_zero.2.2.2.2.2.2.1 [] rfl rfl⟩
